import Mathlib

/-!
Verification of the continuation-chain evaluator (`Continuator` / `Bind` /
`Return` / `AsyncApi` / `Loop` / `LoopN`), the register-access policies
(`ro_t` / `rw_t`) and the directive pattern (`destination_directive`,
`operator<<`) of this repository.

The continuation chain is embedded as an inductive family `Step A`
mirroring the C++ class hierarchy `Continuator<void, A>`:
`Return<R,A>` wraps a value, `AsyncApi` wraps the fake async API (which
delivers the string "Data from async" after one simulated asynchronous
unit of work), `Bind<R,A,C>` composes a predecessor step with a function
from its result to the next step, and `log` records the `std::cout`
line a step prints when activated (as at the top of `Loop::andThen` and
`LoopN::andThen`).

Driving a step (`andThen` in the source) is given trace semantics: the
result of `andThen s k` is the sequence of observable events — console
output lines (thread ids abstracted away), simulated asynchronous units
of work, and the invocations of continuations, which a continuation
records itself in the event list it returns.
-/

/-- Observable events of driving a chain: a console output line, one
simulated asynchronous unit of work (the detached thread of `asyncApi`
sleeping and completing), and the invocation of a continuation with a
value (recorded by marker continuations). -/
inductive Event (A : Type) where
  | out (s : String)
  | asyncUnit
  | callK (v : A)
deriving DecidableEq, Repr

/-- The value the fake async API `asyncApi` eventually hands to its
handler. -/
def asyncData : String := "Data from async"

/-- The step structure of a continuation chain, mirroring the concrete
`Continuator<void, A>` subclasses of the source. `Return` wraps a fixed
value, `AsyncApi` is the wrapper around `asyncApi` (so it exists only at
`A = String`), `Bind` pairs a predecessor step with the function `_rest`
from its result to the next step, and `log` records the console line a
composite step prints on activation. -/
inductive Step : Type → Type 1 where
  | Return {A : Type} (x : A) : Step A
  | AsyncApi : Step String
  | Bind {A : Type} (ktor : Step A) (rest : A → Step A) : Step A
  | log {A : Type} (msg : String) (s : Step A) : Step A

/-- Trace semantics of `andThen` (the drive operation). `Return x`
invokes `k x` and nothing else; `AsyncApi` prints its two lines, performs
one asynchronous unit of work and then hands `asyncData` to `k`;
`Bind ktor rest` drives `ktor` with the continuation that builds
`rest a` from the predecessor result `a` and drives it with `k`
(exactly the lambda built in `Bind::andThen`); `log` prints its line
and continues. -/
def andThen : {A : Type} → Step A → (A → List (Event A)) → List (Event A)
  | _, .Return x, k => k x
  | _, .AsyncApi, k =>
      .out "called async in thread" :: .out "Started async, sleeping 3secs" ::
        .asyncUnit :: k asyncData
  | _, .Bind ktor rest, k => andThen ktor fun a => andThen (rest a) k
  | _, .log msg s, k => .out msg :: andThen s k

/-- Number of continuation invocations recorded in a trace. -/
def kCalls {A : Type} : List (Event A) → Nat
  | [] => 0
  | .callK _ :: es => kCalls es + 1
  | .out _ :: es => kCalls es
  | .asyncUnit :: es => kCalls es

/-- Number of simulated asynchronous units of work in a trace. -/
def auCount {A : Type} : List (Event A) → Nat
  | [] => 0
  | .asyncUnit :: es => auCount es + 1
  | .out _ :: es => auCount es
  | .callK _ :: es => auCount es

/-- The values continuation invocations were recorded with, in order. -/
def kArgs {A : Type} : List (Event A) → List A
  | [] => []
  | .callK v :: es => v :: kArgs es
  | .out _ :: es => kArgs es
  | .asyncUnit :: es => kArgs es

/-- The marker continuation: records its own invocation and does nothing
else. -/
def kMark {A : Type} : A → List (Event A) := fun v => [Event.callK v]

/-- The bounded loop of the source. `LoopN::andThen` prints its log line,
then drives `Bind(AsyncApi(), rest)` where `rest s` is `LoopN(s, n-1)`
when `n > 0` and `Return("Done!")` otherwise. Note the async unit of
work of the `AsyncApi` predecessor happens on every activation, before
`n` is tested. `n` is the C++ `int` field `_n`, modelled as `Int`. -/
def LoopN (s : String) (n : Int) : Step String :=
  .log ("[LoopN::andThen] " ++ s ++ " " ++ toString n)
    (.Bind .AsyncApi fun a =>
      if h : 0 < n then LoopN a (n - 1) else .Return "Done!")
termination_by n.toNat
decreasing_by simp_wf; omega

/-- The unbounded loop of the source, with trace semantics indexed by the
number of activations observed. `Loop::andThen` prints its log line and
drives `Bind(AsyncApi(), s => Loop(s))`, which performs the `asyncApi`
console output and one async unit of work and then activates
`Loop("Data from async")` — forever, so the trace of the first `fuel`
activations never reaches the continuation. -/
def loopAndThen : Nat → String → (String → List (Event String)) → List (Event String)
  | 0, _, _ => []
  | fuel + 1, s, k =>
      .out ("Loop::andThen: " ++ s) :: .out "called async in thread" ::
      .out "Started async, sleeping 3secs" :: .asyncUnit ::
      loopAndThen fuel asyncData k

/-!
Register-access policies of the register snippet. The C++ register word
type is `unsigned` (32 bits); values are naturals and every operation
that can exceed 32 bits is reduced modulo `2 ^ 32`, as C unsigned
arithmetic does. The bitwise complement `~x` of a 32-bit value is
`x ^^^ (2 ^ 32 - 1)`.
-/

/-- One more than the largest C `unsigned` value: `2 ^ 32`. -/
def UMOD : Nat := 2 ^ 32

namespace ro_t

/-- The readonly policy: `return (*reg >> offset) & mask;`. -/
def read (reg mask offset : Nat) : Nat := (reg >>> offset) &&& mask

end ro_t

namespace rw_t

/-- The read/write policy:
`*reg = (*reg & ~(mask << offset)) | ((value & mask) << offset);`,
with the two shifted fields truncated to 32 bits as unsigned
arithmetic wraps them, and `~` as xor with the all-ones 32-bit word. -/
def write (reg mask offset value : Nat) : Nat :=
  (reg &&& (((mask <<< offset) % UMOD) ^^^ (UMOD - 1))) |||
    (((value &&& mask) <<< offset) % UMOD)

end rw_t

/-!
The directive pattern of `directives.cpp`. A `Message` holds a
destination, a source and a `uint64_t` id (modelled as `Nat`; no
arithmetic is performed on it). A directive is a function object that
receives the target by reference, mutates one field and returns the same
reference; in this value-level embedding a directive maps the incoming
message to the updated message, and `operator<<` applies the directive
to the message, so a chain of `<<` applications threads the message
through the directives left to right. -/
structure Message where
  destination : String
  source : String
  id : Nat
deriving DecidableEq, Repr

/-- The `Message` default constructor:
`destination("empty"), source("empty"), id(0ULL)`. -/
def Message.init : Message := ⟨"empty", "empty", 0⟩

/-- The `destination_directive`: `input.destination = value; return input;`. -/
def destination_directive (value : String) (input : Message) : Message :=
  { input with destination := value }

/-- The `source_directive`: `input.source = value; return input;`. -/
def source_directive (value : String) (input : Message) : Message :=
  { input with source := value }

/-- The `id_directive` on `Message`: `input.id = value; return input;`. -/
def id_directive (value : Nat) (input : Message) : Message :=
  { input with id := value }

/-- The shift-left operator on `Message`: `return directive(msg);`. -/
def opShl (msg : Message) (directive : Message → Message) : Message :=
  directive msg

/-- Lemma: driving any step with a continuation that records exactly one
invocation yields a trace with exactly one recorded invocation. This is
the single-invocation invariant for every step of the chain. -/
theorem kCalls_andThen_eq_one {A : Type} (s : Step A)
    (k : A → List (Event A)) (hk : ∀ v, kCalls (k v) = 1) :
    kCalls (andThen s k) = 1 := by
  induction s with
  | Return x => exact hk x
  | AsyncApi => simp [andThen, kCalls, hk]
  | Bind ktor rest ih_ktor ih_rest =>
      exact ih_ktor _ fun a => ih_rest a k hk
  | log msg s ih => simpa [andThen, kCalls] using ih k hk

/-- Unfolding of one `LoopN` activation: the log line, the `asyncApi`
console lines, one async unit of work, then either the next `LoopN`
activation (when `n > 0`) or the invocation of `k` with "Done!". -/
theorem LoopN_andThen (s : String) (n : Int) (k : String → List (Event String)) :
    andThen (LoopN s n) k =
      .out ("[LoopN::andThen] " ++ s ++ " " ++ toString n) ::
      .out "called async in thread" :: .out "Started async, sleeping 3secs" ::
      .asyncUnit ::
      (if 0 < n then andThen (LoopN asyncData (n - 1)) k else k "Done!") := by
  rw [LoopN]
  by_cases h : 0 < n <;> simp [andThen, h]

/-- Helper for the bounded-loop trace: at a nonnegative bound `m`,
driving `LoopN s m` with the marker continuation records exactly one
continuation invocation, with argument "Done!", after exactly `m + 1`
async units of work. -/
theorem LoopN_trace_nat (m : Nat) : ∀ s : String,
    kCalls (andThen (LoopN s (m : Int)) kMark) = 1 ∧
    auCount (andThen (LoopN s (m : Int)) kMark) = m + 1 ∧
    kArgs (andThen (LoopN s (m : Int)) kMark) = ["Done!"] := by
  induction m with
  | zero =>
      intro s
      rw [LoopN_andThen]
      norm_num [kCalls, auCount, kArgs, kMark]
  | succ m ih =>
      intro s
      rw [LoopN_andThen]
      have hpos : (0 : Int) < ((m + 1 : Nat) : Int) := by positivity
      rw [if_pos hpos]
      have hcast : ((m + 1 : Nat) : Int) - 1 = (m : Int) := by push_cast; ring
      rw [hcast]
      obtain ⟨h1, h2, h3⟩ := ih asyncData
      simp [kCalls, auCount, kArgs, h1, h2, h3]

/-- Sanity check that one `Loop` activation is exactly the log line
followed by driving the `AsyncApi` predecessor with the continuation
that activates the next `Loop`, as `Loop::andThen` is written. -/
theorem loopAndThen_unfold (fuel : Nat) (s : String)
    (k : String → List (Event String)) :
    loopAndThen (fuel + 1) s k =
      Event.out ("Loop::andThen: " ++ s) ::
        andThen Step.AsyncApi (fun a => loopAndThen fuel a k) := rfl

/-- C1: the composition law. Driving `Bind ktor rest` with `k` is driving
`ktor` with the continuation that receives the predecessor result `a`,
builds `rest a` and drives it with `k`. This is exactly how
`Bind::andThen` is implemented, so the law holds definitionally. -/
theorem C1_bind_composition {A : Type} (S : Step A) (next : A → Step A)
    (k : A → List (Event A)) :
    andThen (Step.Bind S next) k = andThen S (fun a => andThen (next a) k) := rfl

/-- C4: driving `Return v` with `k` produces exactly the trace of `k v`:
the continuation is invoked once with `v`, synchronously, with no other
observable effect, and its result is the result of the drive. -/
theorem C4_return_invokes_k {A : Type} (v : A) (k : A → List (Event A)) :
    andThen (Step.Return v) k = k v := rfl

/-- C5: `Bind` is associative. Driving a left-nested and a right-nested
composition of the same step and the same two continuation-step
functions produces identical traces: the same observable sequence of
side effects and the same final continuation invocations. -/
theorem C5_bind_assoc {A : Type} (S : Step A) (f g : A → Step A)
    (k : A → List (Event A)) :
    andThen (Step.Bind (Step.Bind S f) g) k
      = andThen (Step.Bind S (fun a => Step.Bind (f a) g)) k := rfl

/-- C7: driving `Bind (Return 5) (fun x => Return (x*2))` with any `k`
invokes `k` exactly once with the value `10`, producing exactly the
trace of `k 10`. -/
theorem C7_bind_return_scenario (k : Nat → List (Event Nat)) :
    andThen (Step.Bind (Step.Return 5) (fun x => Step.Return (x * 2))) k
      = k 10 := rfl

/-- C3: exactly-once invariant. For every chain (built from `Return`,
`AsyncApi`, `Bind` and log lines) and every continuation that records
exactly one invocation per call, driving the chain records exactly one
invocation of the final continuation — never zero, never more than one,
no matter how many intermediate steps are bound; and since the statement
quantifies over every step and continuation, the same holds for each
step's own continuation per activation. -/
theorem C3_exactly_once {A : Type} (s : Step A) (k : A → List (Event A))
    (hk : ∀ v, kCalls (k v) = 1) : kCalls (andThen s k) = 1 :=
  kCalls_andThen_eq_one s k hk

/-- Witness for C3 at a concrete chain binding an `AsyncApi` step twice,
driven with the marker continuation. -/
theorem C3_exactly_once_witness :
    (∀ v : String, kCalls (kMark v) = 1) ∧
    kCalls (andThen
      (Step.Bind (Step.Bind Step.AsyncApi fun a => Step.Return a)
        fun a => Step.Return (a ++ "!")) kMark) = 1 :=
  ⟨fun _ => rfl,
    C3_exactly_once (Step.Bind (Step.Bind Step.AsyncApi fun a => Step.Return a)
      fun a => Step.Return (a ++ "!")) kMark (fun _ => rfl)⟩

/-- C2 counterexample: the claim asserts that driving `LoopN` with bound
`n` performs exactly `n` async units, so for `n = 0` the continuation is
invoked immediately with no async unit of work. On the source code this
is false: `LoopN::andThen` drives its `AsyncApi` predecessor before
testing `n > 0`, so `LoopN(s, 0)` performs one async unit of work. -/
theorem C2_counterexample :
    ¬ (auCount (andThen (LoopN "Loop: " 0) kMark) = 0) := by
  rw [LoopN_andThen]
  norm_num [auCount, kMark]

/-- C2 (amended): for every `n >= 0`, driving `LoopN(s, n)` invokes the
final continuation exactly once, with the terminal value "Done!", after
exactly `n + 1` simulated async units of work; in particular `n == 0`
performs one async unit of work before invoking `k` with "Done!". -/
theorem C2_loopN_drive (s : String) (n : Int) (hn : 0 ≤ n) :
    kCalls (andThen (LoopN s n) kMark) = 1 ∧
    auCount (andThen (LoopN s n) kMark) = n.toNat + 1 ∧
    kArgs (andThen (LoopN s n) kMark) = ["Done!"] := by
  obtain ⟨m, rfl⟩ : ∃ m : Nat, n = (m : Int) := ⟨n.toNat, by omega⟩
  simpa using LoopN_trace_nat m s

/-- Witness for C2 at the scenario bound `n = 3` (which performs four
async units of work, not three). -/
theorem C2_loopN_drive_witness :
    (0 : Int) ≤ 3 ∧
    (kCalls (andThen (LoopN "Loop: " 3) kMark) = 1 ∧
     auCount (andThen (LoopN "Loop: " 3) kMark) = (3 : Int).toNat + 1 ∧
     kArgs (andThen (LoopN "Loop: " 3) kMark) = ["Done!"]) :=
  ⟨by decide, C2_loopN_drive "Loop: " 3 (by decide)⟩

/-- C6: the unbounded `Loop` recurses forever. However many activations
are observed, the trace does not depend on the continuation at all (so
the continuation is never invoked), no continuation invocation is
recorded, and each activation contributes exactly one async unit of
work — the chain makes progress but never delivers a value. -/
theorem C6_loop_never_delivers (fuel : Nat) (s : String)
    (k₁ k₂ : String → List (Event String)) :
    loopAndThen fuel s k₁ = loopAndThen fuel s k₂ ∧
    kCalls (loopAndThen fuel s k₁) = 0 ∧
    auCount (loopAndThen fuel s k₁) = fuel := by
  induction fuel generalizing s with
  | zero => simp [loopAndThen, kCalls, auCount]
  | succ fuel ih =>
      obtain ⟨h1, h2, h3⟩ := ih asyncData
      refine ⟨?_, ?_, ?_⟩
      · simp [loopAndThen, h1]
      · simp [loopAndThen, kCalls, h2]
      · simp [loopAndThen, auCount, h3]

/-- C9 counterexample: the round-trip fails when `mask << offset`
overflows the 32-bit word. With `mask = 0xFF` and `offset = 28`,
`mask << offset` wraps to `0xF0000000`, so writing `v = 0xFF` into
register `0` and reading the field back yields `0xF`, not
`v & mask = 0xFF`. -/
theorem C9_counterexample :
    ¬ (ro_t.read (rw_t.write 0 255 28 255) 255 28 = 255 &&& 255) := by decide

/-- C9 (amended): for every register value `r < 2 ^ 32`, and every
`mask`, `offset` and `v` such that the field `mask << offset` does not
overflow the 32-bit word, writing `v` through `rw_t::write` and reading
back through `ro_t::read` (which `rw_t` inherits) yields `v & mask`, and
every bit of the register outside the field `mask << offset` is
unchanged by the write. -/
theorem C9_register_roundtrip (r mask offset v : Nat) (hr : r < UMOD)
    (hm : mask <<< offset < UMOD) :
    ro_t.read (rw_t.write r mask offset v) mask offset = v &&& mask ∧
    ∀ i : Nat, (mask <<< offset).testBit i = false →
      (rw_t.write r mask offset v).testBit i = r.testBit i := by
  have hmod1 : (mask <<< offset) % UMOD = mask <<< offset := Nat.mod_eq_of_lt hm
  have hvm : (v &&& mask) <<< offset ≤ mask <<< offset := by
    simp only [Nat.shiftLeft_eq]
    exact Nat.mul_le_mul_right _ Nat.and_le_right
  have hmod2 : ((v &&& mask) <<< offset) % UMOD = (v &&& mask) <<< offset :=
    Nat.mod_eq_of_lt (lt_of_le_of_lt hvm hm)
  have hw : rw_t.write r mask offset v
      = (r &&& (mask <<< offset ^^^ (2 ^ 32 - 1))) ||| ((v &&& mask) <<< offset) := by
    simp only [rw_t.write, hmod1, hmod2]
    rfl
  constructor
  · rw [hw]
    apply Nat.eq_of_testBit_eq
    intro i
    simp only [ro_t.read]
    simp [Nat.add_sub_cancel_left]
    by_cases hmi : mask.testBit i
    · have hbit : (mask <<< offset).testBit (offset + i) = true := by
        simp [Nat.testBit_shiftLeft, hmi]
      have hge := Nat.testBit_implies_ge hbit
      have hlt : offset + i < 32 := by
        by_contra hcon
        have hpow : (2 : Nat) ^ 32 ≤ 2 ^ (offset + i) :=
          Nat.pow_le_pow_right (by norm_num) (by omega)
        have hle : (2 : Nat) ^ 32 ≤ mask <<< offset := le_trans hpow hge
        have hm32 : mask <<< offset < 2 ^ 32 := hm
        omega
      have hall : Nat.testBit 4294967295 (offset + i) = true := by
        have h32 : (4294967295 : Nat) = 2 ^ 32 - 1 := by norm_num
        rw [h32, Nat.testBit_two_pow_sub_one]
        simpa using hlt
      simp [hmi, hlt, hall]
    · simp [hmi]
  · intro i hfield
    have hf2 : ((v &&& mask) <<< offset).testBit i = false := by
      simp only [Nat.testBit_shiftLeft, Nat.testBit_and] at hfield ⊢
      rcases Bool.and_eq_false_iff.mp hfield with h | h
      · simp [h]
      · simp [h]
    rw [hw]
    simp only [Nat.testBit_or, Nat.testBit_and, Nat.testBit_xor,
      Nat.testBit_two_pow_sub_one, hfield, hf2, Bool.false_xor, Bool.or_false]
    by_cases hi : i < 32
    · simp [hi]
    · have hri : r.testBit i = false :=
        Nat.testBit_lt_two_pow
          (lt_of_lt_of_le hr (Nat.pow_le_pow_right (by norm_num) (by omega)))
      simp [hi, hri]

/-- Witness for C9 at register `0xF0F0`, mask `0xFF`, offset `4`,
value `0xAB`: the field reads back as `0xAB` and the bits outside
`0xFF0` keep their old values. -/
theorem C9_register_roundtrip_witness :
    (0xF0F0 : Nat) < UMOD ∧ (0xFF : Nat) <<< 4 < UMOD ∧
    (ro_t.read (rw_t.write 0xF0F0 0xFF 4 0xAB) 0xFF 4 = 0xAB &&& 0xFF ∧
     ∀ i : Nat, ((0xFF : Nat) <<< 4).testBit i = false →
       (rw_t.write 0xF0F0 0xFF 4 0xAB).testBit i = (0xF0F0 : Nat).testBit i) :=
  ⟨by decide, by decide,
    C9_register_roundtrip 0xF0F0 0xFF 4 0xAB (by decide) (by decide)⟩

/-- C10: applying the destination directive through `operator<<` sets
exactly the destination field to `s`, leaves `source` and `id`
unchanged, and the result of `operator<<` is the very message the
directive produced from `m` — so chained directives apply left to right
to the same message. -/
theorem C10_destination_directive_frame (m : Message) (s : String) :
    (opShl m (destination_directive s)).destination = s ∧
    (opShl m (destination_directive s)).source = m.source ∧
    (opShl m (destination_directive s)).id = m.id ∧
    opShl m (destination_directive s) = destination_directive s m ∧
    ∀ d : Message → Message,
      opShl (opShl m (destination_directive s)) d = d (destination_directive s m) :=
  ⟨rfl, rfl, rfl, rfl, fun _ => rfl⟩
